import Mathlib

/-!
Shallow embedding of the FocusFlow progress-aggregation engine.

The definitions below are transcribed from the TypeScript source:
* the domain model (`src/unnamed/part_002`, the shared type declarations),
* the session-completion rollup (`handleSessionComplete` in `src/App.tsx`),
* `getGoalProgress` (the goal-tree component),
* the statistics dashboard's range aggregation (`goalTimeComparison`,
  year-view completion classification, week/month `goalIncrements`),
* the calendar view's daily statistics and heatmap intensity
  (`getDailyStats`, `getIntensityStyle` in `src/components/CalendarView.tsx`),
* the timer controller (`handleComplete`, `handleStopEarly`).

JavaScript numbers are modelled as `Int` for the integer-valued fields
(minutes, timestamps) and as `Rat` inside the ratio computations; `Math.round`
becomes `jsRound`, and JavaScript truthiness of optional numeric fields
(`x || 60`, `s.completedAt && …`) is modelled explicitly.
-/

namespace FocusFlow

inductive TaskType where
  | time
  | count
deriving DecidableEq, Repr

inductive Period where
  | day
  | week
  | month
deriving DecidableEq, Repr

structure Subtask where
  id : String
  parentId : String
  title : String
  isCompleted : Bool
  completedAt : Option Int
  totalTimeSpent : Int
deriving DecidableEq, Repr

structure Task where
  id : String
  parentId : String
  title : String
  type : TaskType
  targetDurationMinutes : Option Int
  period : Option Period
  subtasks : List Subtask
  isCompleted : Bool
  completedAt : Option Int
  totalTimeSpent : Int
deriving DecidableEq, Repr

structure Goal where
  id : String
  title : String
  createdAt : Int
  color : Option String
  tasks : List Task
deriving DecidableEq, Repr

structure FocusSession where
  id : String
  taskId : String
  subtaskId : Option String
  goalId : String
  startTime : Int
  endTime : Int
  durationMinutes : Int
  note : Option String
deriving DecidableEq, Repr

/-- `Math.round`: round half towards positive infinity. -/
def jsRound (q : ℚ) : ℤ := (q + 1 / 2).floor

/-- JavaScript `x || d` on an optional number: `undefined` and `0` are falsy. -/
def jsOr (x : Option Int) (d : Int) : Int :=
  match x with
  | none => d
  | some v => if v = 0 then d else v

/-- `isWithinInterval` of date-fns: inclusive on both ends. -/
def inRange (lo hi x : Int) : Bool := decide (lo ≤ x) && decide (x ≤ hi)

/-- Total `durationMinutes` of a list of sessions (a `reduce` over `+`). -/
def sumDur (l : List FocusSession) : Int := (l.map (·.durationMinutes)).sum

/-! ## `getGoalProgress` (goal-tree component, lines 651-671) -/

/-- The per-task ratio accumulated by `getGoalProgress`:
count-tasks use the completed-subtask fraction (`0` for an empty list),
time-tasks use `min(1, totalTimeSpent / (targetDurationMinutes || 60))`
capped at `1`. -/
def taskRatio (t : Task) : ℚ :=
  if t.type = TaskType.count then
    if t.subtasks.length = 0 then 0
    else ((t.subtasks.filter (·.isCompleted)).length : ℚ) / (t.subtasks.length : ℚ)
  else
    min 1 ((t.totalTimeSpent : ℚ) / (jsOr t.targetDurationMinutes 60 : ℚ))

/-- `getGoalProgress`: `0` for a goal with no tasks, otherwise
`Math.round((sum of ratios / max(tasks.length, 1)) * 100)`. -/
def getGoalProgress (g : Goal) : ℤ :=
  if g.tasks.length = 0 then 0
  else jsRound (((g.tasks.map taskRatio).sum / (max g.tasks.length 1 : ℚ)) * 100)

/-! ## Session-completion rollup (`handleSessionComplete`, `src/App.tsx` 260-301) -/

/-- Step 3 of the rollup: when `session.subtaskId` is set, the matching
subtask's `totalTimeSpent` grows by the session's minutes; nothing else on the
subtask is written. -/
def rollupSubtasks (s : FocusSession) (subs : List Subtask) : List Subtask :=
  match s.subtaskId with
  | some sid =>
      subs.map fun sub =>
        if sub.id = sid then
          { sub with totalTimeSpent := sub.totalTimeSpent + s.durationMinutes }
        else sub
  | none => subs

/-- The update applied to the task matched by `session.taskId`:
new total, completion recheck for time-tasks with a (truthy) target, and
`completedAt` stamped on a false→true transition. -/
def rollupTask (s : FocusSession) (now : Int) (t : Task) : Task :=
  let newTotal := t.totalTimeSpent + s.durationMinutes
  let newCompleted : Bool :=
    match t.targetDurationMinutes with
    | some v =>
        if t.type = TaskType.time ∧ v ≠ 0 then decide (v ≤ newTotal) else t.isCompleted
    | none => t.isCompleted
  { t with
    totalTimeSpent := newTotal
    isCompleted := newCompleted
    completedAt :=
      if newCompleted = true ∧ t.isCompleted = false then some now else t.completedAt
    subtasks := rollupSubtasks s t.subtasks }

def rollupGoal (s : FocusSession) (now : Int) (g : Goal) : Goal :=
  if g.id = s.goalId then
    { g with tasks := g.tasks.map fun t => if t.id = s.taskId then rollupTask s now t else t }
  else g

/-- The `setGoals(goals.map(...))` update of `handleSessionComplete`. -/
def recordSessionRollup (goals : List Goal) (s : FocusSession) (now : Int) : List Goal :=
  goals.map (rollupGoal s now)

/-- `handleSessionComplete`: the session is appended to the ledger
unconditionally, and the goal tree receives the rollup update. -/
def handleSessionComplete (sessions : List FocusSession) (goals : List Goal)
    (s : FocusSession) (now : Int) : List FocusSession × List Goal :=
  (sessions ++ [s], recordSessionRollup goals s now)

/-! ## Timer controller (`Timer` component, `src/unnamed/part_001`) -/

structure TimerContext where
  activeGoal : Option Goal
  activeTask : Option Task
  activeSubtask : Option Subtask
deriving DecidableEq, Repr

/-- Context lookup at the top of the `Timer` component (lines 14-32):
first goal owning a task with the given id, then the optional subtask. -/
def resolveTimerContext (goals : List Goal) (taskId subtaskId : Option String) :
    TimerContext :=
  match taskId with
  | none => ⟨none, none, none⟩
  | some tid =>
    match goals.findSome? (fun g => (g.tasks.find? (fun t => t.id == tid)).map (fun t => (g, t))) with
    | none => ⟨none, none, none⟩
    | some (g, t) =>
      ⟨some g, some t,
        match subtaskId with
        | some sid => t.subtasks.find? (fun sub => sub.id == sid)
        | none => none⟩

/-- `handleComplete` (lines 144-187): rounds the elapsed seconds to minutes,
discards sub-minute runs, and constructs a session only when both a goal and
a task are in context. -/
def handleComplete (ctx : TimerContext) (elapsedSeconds now : Int) (newId : String) :
    Option FocusSession :=
  let durationMinutes := jsRound ((elapsedSeconds : ℚ) / 60)
  if 1 ≤ durationMinutes then
    match ctx.activeGoal, ctx.activeTask with
    | some g, some t =>
        some { id := newId, taskId := t.id, subtaskId := ctx.activeSubtask.map (·.id),
               goalId := g.id, startTime := now - elapsedSeconds * 1000, endTime := now,
               durationMinutes := durationMinutes, note := some "Pomodoro Session" }
    | _, _ => none
  else none

/-- `handleStopEarly` (lines 212-220): an early stop below 60 elapsed seconds
is discarded silently, otherwise it is completed with the elapsed time. -/
def handleStopEarly (ctx : TimerContext) (initialTime timeLeft now : Int)
    (newId : String) : Option FocusSession :=
  let elapsed := initialTime - timeLeft
  if elapsed < 60 then none
  else handleComplete ctx elapsed now newId

/-! ## Calendar view (`src/components/CalendarView.tsx`) -/

/-- `getIntensityStyle` (lines 104-115): zero minutes yields no style (level 0),
otherwise `min(max(minutes/720, 0.1), 1)`. -/
def calendarIntensity (minutes : ℚ) : ℚ :=
  if minutes = 0 then 0
  else min (max (minutes / 720) (1 / 10)) 1

/-- The day filter of `getDailyStats`; `isSameDay` is kept abstract as a
predicate on the session's `startTime`. -/
def daySessions (sessions : List FocusSession) (sameDay : Int → Bool) :
    List FocusSession :=
  sessions.filter (fun s => sameDay s.startTime)

/-- The grouping label of `getDailyStats`: the owning goal's title, or the
sentinel `"Unknown"` when `goalId` resolves to no goal. -/
def sessionGoalName (goals : List Goal) (s : FocusSession) : String :=
  match goals.find? (fun g => g.id == s.goalId) with
  | some g => g.title
  | none => "Unknown"

/-- The value accumulated by `getDailyStats`'s `distribution` record under a
given label: total minutes of the day's sessions grouped onto that label. -/
def dailyDistribution (goals : List Goal) (sessions : List FocusSession)
    (sameDay : Int → Bool) (name : String) : Int :=
  sumDur ((daySessions sessions sameDay).filter (fun s => sessionGoalName goals s == name))

/-! ## Statistics dashboard (`src/unnamed/part_000`) -/

/-- The `rangeSessions` filter (line 168): sessions whose `startTime` lies in
the inclusive `[lo, hi]` interval. -/
def rangeSessions (sessions : List FocusSession) (lo hi : Int) : List FocusSession :=
  sessions.filter (fun s => inRange lo hi s.startTime)

/-- Stable insertion step for the descending sort used by
`goalTimeComparison` (`sort((a, b) => b.value - a.value)`). -/
def insertByMinutes (x : String × Int) : List (String × Int) → List (String × Int)
  | [] => [x]
  | y :: ys => if y.2 ≤ x.2 then x :: y :: ys else y :: insertByMinutes x ys

/-- Stable descending sort on the minute totals. -/
def sortByMinutesDesc (l : List (String × Int)) : List (String × Int) :=
  l.foldr insertByMinutes []

/-- `goalTimeComparison` (lines 174-178): per-goal minutes over the in-range
sessions, zero entries dropped, sorted descending. -/
def goalTimeComparison (goals : List Goal) (sessions : List FocusSession)
    (lo hi : Int) : List (String × Int) :=
  sortByMinutesDesc
    (((goals.map fun g =>
        (g.title, sumDur ((rangeSessions sessions lo hi).filter (fun s => s.goalId == g.id)))).filter
      (fun d => decide (0 < d.2))))

/-- Year-view completion test for one task (lines 189-195): a count-task is
complete iff every subtask is completed (vacuously true for an empty list),
any other task iff its own `isCompleted` flag is set. -/
def taskFullyCompleted (t : Task) : Bool :=
  if t.type = TaskType.count then t.subtasks.all (·.isCompleted) else t.isCompleted

/-- Year-view goal classification: non-empty task list and every task
individually complete. -/
def goalFullyCompleted (g : Goal) : Bool :=
  decide (0 < g.tasks.length) && g.tasks.all taskFullyCompleted

/-- Year-view per-task contribution for an uncompleted goal (lines 201-208):
completed-subtask fraction for count-tasks with subtasks, otherwise the
`isCompleted` flag as 1 or 0. -/
def yearTaskContribution (t : Task) : ℚ :=
  if t.type = TaskType.count ∧ 0 < t.subtasks.length then
    ((t.subtasks.filter (·.isCompleted)).length : ℚ) / (t.subtasks.length : ℚ)
  else if t.isCompleted then 1 else 0

/-- Year-view percent for an uncompleted goal (lines 209-212). -/
def yearUncompletedPercent (g : Goal) : ℤ :=
  if g.tasks.length = 0 then 0
  else jsRound (((g.tasks.map yearTaskContribution).sum / (g.tasks.length : ℚ)) * 100)

/-- The year-view `uncompletedGoalsProgress` list (lines 188-214). -/
def uncompletedGoalsProgress (goals : List Goal) : List (String × ℤ) :=
  goals.filterMap fun g =>
    if goalFullyCompleted g then none else some (g.title, yearUncompletedPercent g)

structure GoalIncrement where
  title : String
  increment : ℤ
  currentTotal : ℤ
deriving DecidableEq, Repr

/-- The subtask filter of the week/month count branch (line 240):
`s.isCompleted && s.completedAt && isWithinInterval(s.completedAt, interval)`,
with JavaScript truthiness on `completedAt` (absent or `0` fails). -/
def subtaskCompletedInRange (lo hi : Int) (sub : Subtask) : Bool :=
  sub.isCompleted &&
    (match sub.completedAt with
     | some c => decide (c ≠ 0) && inRange lo hi c
     | none => false)

/-- Per-task increment ratio of the week/month block (lines 224-246):
time-tasks cap in-period minutes against the (defaulted) target, count-tasks
count subtasks completed inside the interval. -/
def taskIncrementRatio (sessions : List FocusSession) (lo hi : Int) (t : Task) : ℚ :=
  if t.type = TaskType.time then
    min 1 ((sumDur ((rangeSessions sessions lo hi).filter (fun s => s.taskId == t.id)) : ℚ) /
      (jsOr t.targetDurationMinutes 60 : ℚ))
  else
    ((t.subtasks.filter (subtaskCompletedInRange lo hi)).length : ℚ) /
      (max t.subtasks.length 1 : ℚ)

/-- Per-task cumulative ratio of the week/month block: time-tasks recompute
from ALL sessions ever recorded for the task, count-tasks count every
completed subtask. -/
def taskTotalRatio (sessions : List FocusSession) (t : Task) : ℚ :=
  if t.type = TaskType.time then
    min 1 ((sumDur (sessions.filter (fun s => s.taskId == t.id)) : ℚ) /
      (jsOr t.targetDurationMinutes 60 : ℚ))
  else
    ((t.subtasks.filter (·.isCompleted)).length : ℚ) / (max t.subtasks.length 1 : ℚ)

/-- One goal's week/month entry (lines 219-258): both ratios averaged over
`max(tasks.length, 1)`, rounded to percent, kept only when either percent is
positive. -/
def goalIncrementEntry (sessions : List FocusSession) (lo hi : Int) (g : Goal) :
    Option GoalIncrement :=
  let tasksCount : ℚ := (max g.tasks.length 1 : ℚ)
  let incrementPercent :=
    jsRound (((g.tasks.map (taskIncrementRatio sessions lo hi)).sum / tasksCount) * 100)
  let totalPercent :=
    jsRound (((g.tasks.map (taskTotalRatio sessions)).sum / tasksCount) * 100)
  if 0 < incrementPercent ∨ 0 < totalPercent then
    some ⟨g.title, incrementPercent, totalPercent⟩
  else none

/-- The week/month `goalIncrements` list. -/
def goalIncrements (goals : List Goal) (sessions : List FocusSession) (lo hi : Int) :
    List GoalIncrement :=
  goals.filterMap (goalIncrementEntry sessions lo hi)

/-! ## Spec-side formulas

These definitions follow the wording of the specification, to be compared
with the embeddings above. -/

/-- Spec wording of the per-task ratio of `goalProgress`:
count — `subtasks.length === 0 → 0`, else the completed fraction;
time — `min(1, totalTimeSpent / max(targetDurationMinutes, 1))` with a
default target of 60 when the target is missing. -/
def taskRatioSpec (t : Task) : ℚ :=
  match t.type with
  | TaskType.count =>
    if t.subtasks.length = 0 then 0
    else ((t.subtasks.filter (·.isCompleted)).length : ℚ) / (t.subtasks.length : ℚ)
  | TaskType.time =>
    min 1 ((t.totalTimeSpent : ℚ) / (max (t.targetDurationMinutes.getD 60) 1 : ℚ))

/-- Spec wording of goal progress: `round(100 * sum(task ratios) / max(tasks.length, 1))`. -/
def goalProgressSpec (g : Goal) : ℤ :=
  jsRound (100 * (g.tasks.map taskRatioSpec).sum / (max g.tasks.length 1 : ℚ))

/-- Spec wording of the week/month count-task filter: subtasks completed with
`completedAt` inside the range. -/
def subtaskCompletedInRangeSpec (lo hi : Int) (sub : Subtask) : Bool :=
  sub.isCompleted &&
    (match sub.completedAt with
     | some c => inRange lo hi c
     | none => false)

/-- Spec wording of the per-task increment ratio: time —
`min(1, periodMinutes/target)` with `periodMinutes` summed over in-range
sessions of the task; count — subtasks completed inside the range over
`max(subtasks.length, 1)`. -/
def taskIncrementRatioSpec (sessions : List FocusSession) (lo hi : Int) (t : Task) : ℚ :=
  if t.type = TaskType.time then
    min 1 ((sumDur ((rangeSessions sessions lo hi).filter (fun s => s.taskId == t.id)) : ℚ) /
      (jsOr t.targetDurationMinutes 60 : ℚ))
  else
    ((t.subtasks.filter (subtaskCompletedInRangeSpec lo hi)).length : ℚ) /
      (max t.subtasks.length 1 : ℚ)

/-- Spec wording of the per-task cumulative ratio: time —
`min(1, allTimeMinutes/target)` with `allTimeMinutes` recomputed from the full
session ledger (never the cached `totalTimeSpent`); count — subtasks
completed ever over `max(subtasks.length, 1)`. -/
def taskTotalRatioSpec (sessions : List FocusSession) (t : Task) : ℚ :=
  if t.type = TaskType.time then
    min 1 ((sumDur (sessions.filter (fun s => s.taskId == t.id)) : ℚ) /
      (jsOr t.targetDurationMinutes 60 : ℚ))
  else
    ((t.subtasks.filter (·.isCompleted)).length : ℚ) / (max t.subtasks.length 1 : ℚ)

/-- Spec wording of the week/month `goalIncrements`: per goal, the rounded
percents of the per-task averages, the goal included iff either percent is
positive. -/
def goalIncrementsSpec (goals : List Goal) (sessions : List FocusSession)
    (lo hi : Int) : List GoalIncrement :=
  goals.filterMap fun g =>
    let inc := jsRound (((g.tasks.map (taskIncrementRatioSpec sessions lo hi)).sum /
      (max g.tasks.length 1 : ℚ)) * 100)
    let tot := jsRound (((g.tasks.map (taskTotalRatioSpec sessions)).sum /
      (max g.tasks.length 1 : ℚ)) * 100)
    if 0 < inc ∨ 0 < tot then some ⟨g.title, inc, tot⟩ else none

/-- A session's `goalId` resolves to a goal of the current store. -/
def goalResolves (goals : List Goal) (s : FocusSession) : Bool :=
  goals.any fun g => g.id == s.goalId

/-- A session's `taskId` resolves to a task of some goal of the current
store. -/
def taskResolves (goals : List Goal) (s : FocusSession) : Bool :=
  goals.any fun g => g.tasks.any fun t => t.id == s.taskId

/-! ## Concrete fixtures used by witnesses and counterexamples -/

/-- A half-done time-task: 30 of 60 target minutes, not yet flagged complete. -/
def halfTask : Task :=
  { id := "t1", parentId := "g1", title := "T", type := TaskType.time,
    targetDurationMinutes := some 60, period := some Period.day, subtasks := [],
    isCompleted := false, completedAt := none, totalTimeSpent := 30 }

/-- A goal holding only `halfTask`. -/
def halfGoal : Goal :=
  { id := "g1", title := "G", createdAt := 0, color := none, tasks := [halfTask] }

def subA : Subtask :=
  { id := "st1", parentId := "t1", title := "A", isCompleted := false,
    completedAt := none, totalTimeSpent := 5 }

/-- A time-task at 20 of 60 minutes carrying one subtask. -/
def rollTask : Task :=
  { id := "t1", parentId := "g1", title := "T", type := TaskType.time,
    targetDurationMinutes := some 60, period := some Period.day, subtasks := [subA],
    isCompleted := false, completedAt := none, totalTimeSpent := 20 }

def rollGoal : Goal :=
  { id := "g1", title := "G", createdAt := 0, color := none, tasks := [rollTask] }

/-- A 45-minute session against `rollTask` and its subtask. -/
def sess45 : FocusSession :=
  { id := "s1", taskId := "t1", subtaskId := some "st1", goalId := "g1",
    startTime := 3, endTime := 4, durationMinutes := 45, note := none }

/-- A session whose `taskId` resolves to nothing. -/
def sessNoTask : FocusSession :=
  { id := "s2", taskId := "deleted", subtaskId := none, goalId := "g1",
    startTime := 5, endTime := 6, durationMinutes := 30, note := none }

/-- A session whose `goalId` resolves to nothing. -/
def sessNoGoal : FocusSession :=
  { id := "s3", taskId := "zz", subtaskId := none, goalId := "zz",
    startTime := 5, endTime := 6, durationMinutes := 25, note := none }

/-- A goal with no tasks at all (so every `taskId` dangles under it). -/
def bareGoal : Goal :=
  { id := "g1", title := "G", createdAt := 0, color := none, tasks := [] }

def subDone : Subtask :=
  { id := "c1", parentId := "t2", title := "one", isCompleted := true,
    completedAt := some 5, totalTimeSpent := 0 }

def subTodo : Subtask :=
  { id := "c2", parentId := "t2", title := "two", isCompleted := false,
    completedAt := none, totalTimeSpent := 0 }

def subTodo2 : Subtask :=
  { id := "c3", parentId := "t2", title := "three", isCompleted := false,
    completedAt := none, totalTimeSpent := 0 }

/-- A count-task with three subtasks, one completed at time 5. -/
def countTask : Task :=
  { id := "t2", parentId := "g2", title := "C", type := TaskType.count,
    targetDurationMinutes := none, period := none, subtasks := [subDone, subTodo, subTodo2],
    isCompleted := false, completedAt := none, totalTimeSpent := 0 }

def countGoal : Goal :=
  { id := "g2", title := "G2", createdAt := 0, color := none, tasks := [countTask] }

/-- An overshooting time-task: 150 minutes against a 60-minute target. -/
def overTask : Task :=
  { id := "t3", parentId := "g3", title := "O", type := TaskType.time,
    targetDurationMinutes := some 60, period := some Period.day, subtasks := [],
    isCompleted := true, completedAt := some 9, totalTimeSpent := 150 }

def overGoal : Goal :=
  { id := "g3", title := "G3", createdAt := 0, color := none,
    tasks := [overTask, countTask] }

/-- A timer context with no goal or task attached ("free focus"). -/
def freeContext : TimerContext := ⟨none, none, none⟩

/-! ## Helper lemmas -/

/-- `jsRound` is the floor of the shifted argument. -/
theorem jsRound_eq (q : ℚ) : jsRound q = ⌊q + 1 / 2⌋ := by
  rw [jsRound, Rat.floor_def' (q + 1 / 2), Rat.floor_def]

/-- `jsRound` is monotone. -/
theorem jsRound_mono {p q : ℚ} (h : p ≤ q) : jsRound p ≤ jsRound q := by
  rw [jsRound_eq, jsRound_eq]
  exact Int.floor_le_floor (by linarith)

/-- Any session returned by `handleComplete` carries the rounded elapsed
minutes, which the guard keeps at or above one. -/
theorem handleComplete_some {ctx : TimerContext} {elapsedSeconds now : Int}
    {newId : String} {sess : FocusSession}
    (h : handleComplete ctx elapsedSeconds now newId = some sess) :
    sess.durationMinutes = jsRound ((elapsedSeconds : ℚ) / 60) ∧
      1 ≤ sess.durationMinutes := by
  simp only [handleComplete] at h
  split at h
  · split at h
    · injection h with h'
      subst h'
      exact ⟨rfl, by assumption⟩
    · exact absurd h (by simp)
  · exact absurd h (by simp)

/-- With a positive (or absent) target, the code's truthiness default
`target || 60` agrees with the spec's `max(target ?? 60, 1)`. -/
theorem jsOr_eq_max (x : Option Int) (h : ∀ v, x = some v → 0 < v) :
    jsOr x 60 = max (x.getD 60) 1 := by
  cases x with
  | none => simp [jsOr]
  | some v =>
    have hv := h v rfl
    simp only [jsOr, Option.getD_some]
    rw [if_neg (by omega), max_eq_left (by omega)]

/-- Pointwise agreement of the code's task ratio with the spec's. -/
theorem taskRatio_eq_spec (t : Task)
    (h : ∀ v, t.targetDurationMinutes = some v → 0 < v) :
    taskRatio t = taskRatioSpec t := by
  cases htype : t.type with
  | count => simp [taskRatio, taskRatioSpec, htype]
  | time =>
    have hjs := jsOr_eq_max t.targetDurationMinutes h
    simp [taskRatio, taskRatioSpec, htype, hjs]

/-- A time-task at or beyond its positive target has ratio exactly 1. -/
theorem taskRatio_capped (t : Task) (htype : t.type = TaskType.time) (v : Int)
    (hv : t.targetDurationMinutes = some v) (hpos : 0 < v)
    (hover : (v : ℚ) ≤ (t.totalTimeSpent : ℚ)) : taskRatio t = 1 := by
  have hvq : (0 : ℚ) < (v : ℚ) := by exact_mod_cast hpos
  have hT : jsOr t.targetDurationMinutes 60 = v := by
    rw [hv]
    simp only [jsOr]
    rw [if_neg (by omega)]
  unfold taskRatio
  rw [if_neg (by simp [htype]), hT]
  have h1 : (1 : ℚ) ≤ (t.totalTimeSpent : ℚ) / (v : ℚ) := by
    rw [le_div_iff₀ hvq]
    linarith
  rw [min_eq_left h1]

/-- The rollup never changes a task's id. -/
theorem rollupTask_id (s : FocusSession) (now : Int) (t : Task) :
    (rollupTask s now t).id = t.id := rfl

/-- The rollup adds the session's minutes to the task total. -/
theorem rollupTask_totalTimeSpent (s : FocusSession) (now : Int) (t : Task) :
    (rollupTask s now t).totalTimeSpent = t.totalTimeSpent + s.durationMinutes := rfl

/-- For a time-task with a truthy target, completion is recomputed against
the new total. -/
theorem rollupTask_isCompleted_time {t : Task} (s : FocusSession) (now : Int)
    {v : Int} (htype : t.type = TaskType.time)
    (hv : t.targetDurationMinutes = some v) (hvne : v ≠ 0) :
    (rollupTask s now t).isCompleted =
      decide (v ≤ t.totalTimeSpent + s.durationMinutes) := by
  simp only [rollupTask, hv]
  rw [if_pos ⟨htype, hvne⟩]

/-- For a count-task or a task without a target, the rollup leaves the
completion flag alone. -/
theorem rollupTask_isCompleted_other {t : Task} (s : FocusSession) (now : Int)
    (hor : t.type = TaskType.count ∨ t.targetDurationMinutes = none) :
    (rollupTask s now t).isCompleted = t.isCompleted := by
  rcases hor with hc | hn
  · simp only [rollupTask]
    cases hv : t.targetDurationMinutes with
    | none => rfl
    | some v =>
      show (if t.type = TaskType.time ∧ v ≠ 0 then
          decide (v ≤ t.totalTimeSpent + s.durationMinutes)
        else t.isCompleted) = t.isCompleted
      rw [if_neg]
      rintro ⟨h1, _⟩
      rw [hc] at h1
      exact TaskType.noConfusion h1
  · simp only [rollupTask, hn]

/-- `completedAt` after the rollup: stamped with `now` exactly on the
false→true transition of the completion flag. -/
theorem rollupTask_completedAt (s : FocusSession) (now : Int) (t : Task) :
    (rollupTask s now t).completedAt =
      (if (rollupTask s now t).isCompleted = true ∧ t.isCompleted = false then
        some now
      else t.completedAt) := rfl

/-- The rollup's subtask list is `rollupSubtasks`. -/
theorem rollupTask_subtasks (s : FocusSession) (now : Int) (t : Task) :
    (rollupTask s now t).subtasks = rollupSubtasks s t.subtasks := rfl

/-- A subtask matched by the session's `subtaskId` reappears with only its
`totalTimeSpent` increased. -/
theorem rollupSubtasks_mem {s : FocusSession} {sid : String}
    (hsid : s.subtaskId = some sid) {subs : List Subtask} {sub : Subtask}
    (hmem : sub ∈ subs) (hid : sub.id = sid) :
    { sub with totalTimeSpent := sub.totalTimeSpent + s.durationMinutes } ∈
      rollupSubtasks s subs := by
  unfold rollupSubtasks
  rw [hsid]
  have hmap := List.mem_map_of_mem
    (fun sub : Subtask =>
      if sub.id = sid then
        { sub with totalTimeSpent := sub.totalTimeSpent + s.durationMinutes }
      else sub) hmem
  simpa [hid] using hmap

/-! ## Claim C1 -/

/-- Claim C1: when a session's goal and task both resolve (targets being
positive when present, per the data model), the rollup increments the task's
`totalTimeSpent` by the session's minutes; for a time-task with a target,
`isCompleted` is recomputed as `newTotal ≥ target` and `completedAt` is set
to the recording instant exactly on the false→true transition (otherwise
left unchanged); a subtask matched by `session.subtaskId` gains the same
minutes while its `isCompleted` and `completedAt` are untouched. -/
theorem C1_session_rollup (goals : List Goal) (s : FocusSession) (now : Int)
    (g : Goal) (t : Task) (hg : g ∈ goals) (hgid : g.id = s.goalId)
    (ht : t ∈ g.tasks) (htid : t.id = s.taskId)
    (htarget : ∀ v, t.targetDurationMinutes = some v → 0 < v) :
    ∃ g' ∈ recordSessionRollup goals s now, g'.id = g.id ∧
      ∃ t' ∈ g'.tasks, t'.id = t.id ∧
        t'.totalTimeSpent = t.totalTimeSpent + s.durationMinutes ∧
        (∀ v, t.type = TaskType.time → t.targetDurationMinutes = some v →
          t'.isCompleted = decide (v ≤ t.totalTimeSpent + s.durationMinutes) ∧
          t'.completedAt =
            (if t'.isCompleted = true ∧ t.isCompleted = false then some now
             else t.completedAt)) ∧
        ((t.type = TaskType.count ∨ t.targetDurationMinutes = none) →
          t'.isCompleted = t.isCompleted ∧ t'.completedAt = t.completedAt) ∧
        (∀ sid, s.subtaskId = some sid → ∀ sub ∈ t.subtasks, sub.id = sid →
          ∃ sub' ∈ t'.subtasks, sub'.id = sub.id ∧
            sub'.totalTimeSpent = sub.totalTimeSpent + s.durationMinutes ∧
            sub'.isCompleted = sub.isCompleted ∧
            sub'.completedAt = sub.completedAt) := by
  have hgoalid : (rollupGoal s now g).id = g.id := by
    unfold rollupGoal
    split <;> rfl
  have htasks : (rollupGoal s now g).tasks
      = g.tasks.map (fun t => if t.id = s.taskId then rollupTask s now t else t) := by
    unfold rollupGoal
    rw [if_pos hgid]
  refine ⟨rollupGoal s now g, List.mem_map_of_mem _ hg, hgoalid,
    rollupTask s now t, ?_, rollupTask_id s now t,
    rollupTask_totalTimeSpent s now t, ?_, ?_, ?_⟩
  · rw [htasks]
    have hmap := List.mem_map_of_mem
      (fun t : Task => if t.id = s.taskId then rollupTask s now t else t) ht
    simpa [htid] using hmap
  · intro v htype hv
    have hvne : v ≠ 0 := by
      have := htarget v hv
      omega
    exact ⟨rollupTask_isCompleted_time s now htype hv hvne,
      rollupTask_completedAt s now t⟩
  · intro hor
    have hcomp := rollupTask_isCompleted_other s now hor
    refine ⟨hcomp, ?_⟩
    rw [rollupTask_completedAt s now t, hcomp, if_neg]
    rintro ⟨h1, h2⟩
    rw [h2] at h1
    exact Bool.false_ne_true h1
  · intro sid hsid sub hsub hsubid
    refine ⟨{ sub with totalTimeSpent := sub.totalTimeSpent + s.durationMinutes },
      ?_, rfl, rfl, rfl, rfl⟩
    rw [rollupTask_subtasks]
    exact rollupSubtasks_mem hsid hsub hsubid

/-- Witness for C1: the spec's scenario step — a 45-minute session against a
time-task at 20 of 60 minutes, pushing it over its target, with a matching
subtask. -/
theorem C1_session_rollup_witness :
    ∃ g' ∈ recordSessionRollup [rollGoal] sess45 777, g'.id = rollGoal.id ∧
      ∃ t' ∈ g'.tasks, t'.id = rollTask.id ∧
        t'.totalTimeSpent = rollTask.totalTimeSpent + sess45.durationMinutes ∧
        (∀ v, rollTask.type = TaskType.time →
          rollTask.targetDurationMinutes = some v →
          t'.isCompleted = decide (v ≤ rollTask.totalTimeSpent + sess45.durationMinutes) ∧
          t'.completedAt =
            (if t'.isCompleted = true ∧ rollTask.isCompleted = false then some 777
             else rollTask.completedAt)) ∧
        ((rollTask.type = TaskType.count ∨ rollTask.targetDurationMinutes = none) →
          t'.isCompleted = rollTask.isCompleted ∧
          t'.completedAt = rollTask.completedAt) ∧
        (∀ sid, sess45.subtaskId = some sid → ∀ sub ∈ rollTask.subtasks, sub.id = sid →
          ∃ sub' ∈ t'.subtasks, sub'.id = sub.id ∧
            sub'.totalTimeSpent = sub.totalTimeSpent + sess45.durationMinutes ∧
            sub'.isCompleted = sub.isCompleted ∧
            sub'.completedAt = sub.completedAt) := by
  refine C1_session_rollup [rollGoal] sess45 777 rollGoal rollTask (by simp) rfl
    (by simp [rollGoal]) rfl ?_
  intro v hv
  simp [rollTask] at hv
  omega

/-! ## Claim C6 -/

/-- Claim C6: when no goal-task pair resolves the session's ids, the
session-completion handler appends the session to the ledger and leaves the
goal collection exactly as it was. -/
theorem C6_rollup_noop (goals : List Goal) (sessions : List FocusSession)
    (s : FocusSession) (now : Int)
    (h : ∀ g ∈ goals, g.id = s.goalId → ∀ t ∈ g.tasks, t.id ≠ s.taskId) :
    handleSessionComplete sessions goals s now = (sessions ++ [s], goals) := by
  unfold handleSessionComplete recordSessionRollup
  refine congrArg (Prod.mk (sessions ++ [s])) ?_
  conv_rhs => rw [← List.map_id goals]
  refine List.map_congr_left fun g hgmem => ?_
  unfold rollupGoal
  by_cases hid : g.id = s.goalId
  · rw [if_pos hid]
    have htasks : (g.tasks.map fun t =>
        if t.id = s.taskId then rollupTask s now t else t) = g.tasks := by
      conv_rhs => rw [← List.map_id g.tasks]
      refine List.map_congr_left fun t htm => ?_
      rw [if_neg (h g hgmem hid t htm)]
      rfl
    rw [htasks]
    rfl
  · rw [if_neg hid]
    rfl

/-- Witness for C6: a session naming an existing goal but a deleted task. -/
theorem C6_rollup_noop_witness :
    (∀ g ∈ [rollGoal], g.id = sessNoTask.goalId →
      ∀ t ∈ g.tasks, t.id ≠ sessNoTask.taskId) ∧
    handleSessionComplete [] [rollGoal] sessNoTask 5 = ([sessNoTask], [rollGoal]) := by
  have h : ∀ g ∈ [rollGoal], g.id = sessNoTask.goalId →
      ∀ t ∈ g.tasks, t.id ≠ sessNoTask.taskId := by
    intro g hgmem hid t htm
    simp only [List.mem_singleton] at hgmem
    subst hgmem
    simp only [rollGoal, List.mem_singleton] at htm
    subst htm
    simp [rollTask, sessNoTask]
  exact ⟨h, C6_rollup_noop [rollGoal] [] sessNoTask 5 h⟩

/-! ## Claim C2 -/

/-- Claim C2: for every goal whose present time-targets are positive (the
data model's invariant), `getGoalProgress` equals the spec formula
`round(100 * Σ task ratios / max(tasks.length, 1))` with the documented
per-task ratios; a goal with zero tasks has progress 0; and a time-task at or
beyond its target contributes exactly 1 regardless of overshoot. -/
theorem C2_goalProgress_spec (g : Goal)
    (h : ∀ t ∈ g.tasks, ∀ v, t.targetDurationMinutes = some v → 0 < v) :
    getGoalProgress g = goalProgressSpec g ∧
    (g.tasks.length = 0 → getGoalProgress g = 0) ∧
    (∀ t ∈ g.tasks, t.type = TaskType.time → ∀ v, t.targetDurationMinutes = some v →
      (v : ℚ) ≤ (t.totalTimeSpent : ℚ) → taskRatio t = 1) := by
  refine ⟨?_, fun hlen => by rw [getGoalProgress, if_pos hlen],
    fun t ht htype v hv hover => taskRatio_capped t htype v hv (h t ht v hv) hover⟩
  rw [getGoalProgress, goalProgressSpec]
  by_cases hlen : g.tasks.length = 0
  · rw [if_pos hlen]
    rw [List.length_eq_zero.mp hlen]
    norm_num [jsRound_eq]
  · rw [if_neg hlen]
    rw [List.map_congr_left (fun t ht => taskRatio_eq_spec t (h t ht))]
    congr 1
    ring

/-- Witness for C2 on `overGoal` (an overshooting time-task plus a partially
completed count-task). -/
theorem C2_goalProgress_spec_witness :
    (∀ t ∈ overGoal.tasks, ∀ v : Int, t.targetDurationMinutes = some v → 0 < v) ∧
    getGoalProgress overGoal = goalProgressSpec overGoal := by
  have h : ∀ t ∈ overGoal.tasks, ∀ v : Int, t.targetDurationMinutes = some v → 0 < v := by
    intro t ht v hv
    simp only [overGoal, List.mem_cons, List.not_mem_nil, or_false] at ht
    rcases ht with h1 | h1
    · subst h1
      simp [overTask] at hv
      omega
    · subst h1
      simp [countTask] at hv
  exact ⟨h, (C2_goalProgress_spec overGoal h).1⟩

/-! ## Claim C7 -/

/-- Claim C7: `calendarIntensity(0) = 0`; for every positive number of minutes
the intensity is `min(max(minutes/720, 0.10), 1.0)`; in particular one minute
maps to the 0.10 floor, 720 minutes to 1.0, and 1440 minutes stays clamped
at 1.0. -/
theorem C7_calendarIntensity :
    calendarIntensity 0 = 0 ∧
    (∀ m : ℚ, 0 < m → calendarIntensity m = min (max (m / 720) (1 / 10)) 1) ∧
    calendarIntensity 1 = 1 / 10 ∧
    calendarIntensity 720 = 1 ∧
    calendarIntensity 1440 = 1 := by
  refine ⟨by norm_num [calendarIntensity], fun m hm => ?_, ?_, ?_, ?_⟩
  · rw [calendarIntensity, if_neg (by linarith)]
  · norm_num [calendarIntensity, min_def, max_def]
  · norm_num [calendarIntensity, min_def, max_def]
  · norm_num [calendarIntensity, min_def, max_def]

/-- Witness for C7's positive-minutes clause, at 3 minutes. -/
theorem C7_calendarIntensity_witness :
    (0 : ℚ) < 3 ∧ calendarIntensity 3 = min (max (3 / 720) (1 / 10)) 1 :=
  ⟨by norm_num, C7_calendarIntensity.2.1 3 (by norm_num)⟩

/-! ## Claim C9 -/

/-- Claim C9: the timer never constructs a session of less than one minute —
an early stop below 60 elapsed seconds yields no session, and every session
that `handleComplete` does produce carries
`durationMinutes = round(elapsedSeconds/60) ≥ 1`. -/
theorem C9_no_subminute_session (ctx : TimerContext)
    (initialTime timeLeft elapsedSeconds now : Int) (newId : String) :
    (initialTime - timeLeft < 60 →
      handleStopEarly ctx initialTime timeLeft now newId = none) ∧
    (∀ sess, handleComplete ctx elapsedSeconds now newId = some sess →
      sess.durationMinutes = jsRound ((elapsedSeconds : ℚ) / 60) ∧
        1 ≤ sess.durationMinutes) ∧
    (∀ sess, handleStopEarly ctx initialTime timeLeft now newId = some sess →
      1 ≤ sess.durationMinutes) := by
  refine ⟨fun h => ?_, fun sess h => handleComplete_some h, fun sess h => ?_⟩
  · rw [handleStopEarly, if_pos h]
  · rw [handleStopEarly] at h
    by_cases hlt : initialTime - timeLeft < 60
    · rw [if_pos hlt] at h
      exact absurd h (by simp)
    · rw [if_neg hlt] at h
      exact (handleComplete_some h).2

/-- Witness for C9: a stop after 30 of 1500 configured seconds is discarded. -/
theorem C9_no_subminute_session_witness :
    (1500 : Int) - 1470 < 60 ∧
      handleStopEarly freeContext 1500 1470 999 "x" = none :=
  ⟨by decide, (C9_no_subminute_session freeContext 1500 1470 0 999 "x").1 (by decide)⟩

/-! ## Claim C8 -/

/-- Claim C8 fails on the code: a free-focus run (no task context) of 300
elapsed seconds rounds to 5 ≥ 1 minutes, yet `handleComplete` produces no
session at all, because session construction is guarded by the presence of
both an active goal and an active task. -/
theorem C8_free_focus_counterexample :
    resolveTimerContext [] none none = freeContext ∧
    1 ≤ jsRound ((300 : ℚ) / 60) ∧
    handleComplete freeContext 300 1000 "s1" = none := by
  refine ⟨rfl, by rw [jsRound_eq, Int.le_floor]; norm_num, ?_⟩
  simp [handleComplete, freeContext]

/-- Claim C8 amended: when the context carries an active goal and task,
every run whose rounded duration is at least one minute produces exactly one
session (with the rounded duration and the context's ids); when the goal or
task context is absent — in particular in free focus — no session is
produced even if the duration reaches a minute. -/
theorem C8_session_production (g : Goal) (t : Task) (sub : Option Subtask)
    (elapsedSeconds now : Int) (newId : String)
    (hd : 1 ≤ jsRound ((elapsedSeconds : ℚ) / 60)) :
    handleComplete ⟨some g, some t, sub⟩ elapsedSeconds now newId =
      some { id := newId, taskId := t.id, subtaskId := sub.map (·.id), goalId := g.id,
             startTime := now - elapsedSeconds * 1000, endTime := now,
             durationMinutes := jsRound ((elapsedSeconds : ℚ) / 60),
             note := some "Pomodoro Session" } ∧
    (∀ ctx : TimerContext, ctx.activeGoal = none ∨ ctx.activeTask = none →
      handleComplete ctx elapsedSeconds now newId = none) := by
  constructor
  · rw [handleComplete]
    simp only
    rw [if_pos hd]
  · intro ctx hctx
    cases hag : ctx.activeGoal <;> cases hat : ctx.activeTask <;>
      simp_all [handleComplete]

/-- Witness for the amended C8 at a 300-second run against `rollGoal`. -/
theorem C8_session_production_witness :
    1 ≤ jsRound ((300 : ℚ) / 60) ∧
    handleComplete ⟨some rollGoal, some rollTask, none⟩ 300 1000 "sid" =
      some { id := "sid", taskId := rollTask.id, subtaskId := none,
             goalId := rollGoal.id, startTime := 1000 - 300 * 1000, endTime := 1000,
             durationMinutes := jsRound ((300 : ℚ) / 60),
             note := some "Pomodoro Session" } := by
  have hd : 1 ≤ jsRound ((300 : ℚ) / 60) := by
    rw [jsRound_eq, Int.le_floor]; norm_num
  exact ⟨hd, (C8_session_production rollGoal rollTask none 300 1000 "sid" hd).1⟩

/-! ## Claim C4 -/

/-- Claim C4 fails on the code: `halfGoal`'s single time-task is at 30 of its
60-minute target, so `getGoalProgress` reports 50, yet the year view
classifies the goal as not fully completed and reports 0 percent for it —
the year view scores a time-task by its `isCompleted` flag, not by the
`min(1, totalTimeSpent/target)` ratio of `goalProgress`. -/
theorem C4_year_percent_counterexample :
    goalFullyCompleted halfGoal = false ∧
    uncompletedGoalsProgress [halfGoal] = [("G", 0)] ∧
    getGoalProgress halfGoal = 50 := by
  refine ⟨rfl, ?_, ?_⟩
  · simp only [uncompletedGoalsProgress, List.filterMap]
    norm_num [goalFullyCompleted, taskFullyCompleted, yearUncompletedPercent,
      yearTaskContribution, halfGoal, halfTask, jsRound_eq]
    simp
  · simp [getGoalProgress, halfGoal, halfTask, taskRatio, jsOr, jsRound_eq]
    norm_num [Int.floor_eq_iff]

/-- Claim C4 amended: the year view's percent for an uncompleted goal scores
a count-task with a non-empty subtask list by its completed-subtask fraction
and every other task (time-tasks, and count-tasks with no subtasks) by its
`isCompleted` flag as 1 or 0, averaged and rounded; it therefore coincides
with `getGoalProgress` exactly on goals all of whose tasks are count-tasks
with at least one subtask, but not in general. -/
theorem C4_year_percent_on_count_goals (g : Goal)
    (h : ∀ t ∈ g.tasks, t.type = TaskType.count ∧ t.subtasks.length ≠ 0) :
    yearUncompletedPercent g = getGoalProgress g := by
  unfold yearUncompletedPercent getGoalProgress
  by_cases hlen : g.tasks.length = 0
  · rw [if_pos hlen, if_pos hlen]
  · rw [if_neg hlen, if_neg hlen]
    have hmap : g.tasks.map yearTaskContribution = g.tasks.map taskRatio := by
      refine List.map_congr_left fun t ht => ?_
      obtain ⟨htype, hsub⟩ := h t ht
      unfold yearTaskContribution taskRatio
      rw [if_pos ⟨htype, Nat.pos_of_ne_zero hsub⟩, if_pos htype, if_neg hsub]
    rw [hmap]
    congr 2
    rw [max_eq_left (by exact_mod_cast Nat.one_le_iff_ne_zero.mpr hlen)]

/-- Witness for the amended C4 on `countGoal` (one count-task, three
subtasks, one completed). -/
theorem C4_year_percent_on_count_goals_witness :
    (∀ t ∈ countGoal.tasks, t.type = TaskType.count ∧ t.subtasks.length ≠ 0) ∧
    yearUncompletedPercent countGoal = getGoalProgress countGoal := by
  have h : ∀ t ∈ countGoal.tasks, t.type = TaskType.count ∧ t.subtasks.length ≠ 0 := by
    intro t ht
    simp only [countGoal, List.mem_singleton] at ht
    subst ht
    simp [countTask]
  exact ⟨h, C4_year_percent_on_count_goals countGoal h⟩

/-! ## Claim C5 -/

/-- Pre-filtering by a predicate implied by the final filter changes
nothing. -/
theorem filter_keep_of_imp {α : Type*} (l : List α) (keep p : α → Bool)
    (h : ∀ a ∈ l, p a = true → keep a = true) :
    (l.filter keep).filter p = l.filter p := by
  rw [List.filter_comm]
  exact List.filter_eq_self.mpr fun a ha =>
    h a (List.mem_of_mem_filter ha) (List.of_mem_filter ha)

/-- The same through an intervening filter. -/
theorem filter_keep_of_imp₂ {α : Type*} (l : List α) (keep p q : α → Bool)
    (h : ∀ a ∈ l, q a = true → keep a = true) :
    ((l.filter keep).filter p).filter q = (l.filter p).filter q := by
  rw [List.filter_comm, filter_keep_of_imp l keep q h, List.filter_comm]

/-- `filterMap` only inspects its function on members of the list. -/
theorem filterMap_congr_mem {α β : Type*} {l : List α} {f g : α → Option β}
    (h : ∀ a ∈ l, f a = g a) : l.filterMap f = l.filterMap g := by
  induction l with
  | nil => rfl
  | cons a l ih =>
    rw [List.filterMap_cons, List.filterMap_cons, h a (List.mem_cons_self a l),
      ih fun x hx => h x (List.mem_cons_of_mem a hx)]

/-- Claim C5 fails on the code: `sessNoTask` names the existing goal `"g1"`
but a deleted task, so it is orphaned in the claim's sense (its `taskId`
resolves to nothing), yet `goalTimeComparison` still credits its 30 minutes
to goal `G`: with the session present the entry is `("G", 30)`, without it
the goal is dropped entirely. -/
theorem C5_orphan_counterexample :
    taskResolves [bareGoal] sessNoTask = false ∧
    goalTimeComparison [bareGoal] [sessNoTask] 0 10 = [("G", 30)] ∧
    goalTimeComparison [bareGoal] [] 0 10 = [] := by
  refine ⟨rfl, ?_, rfl⟩
  rfl

/-- Dropping sessions whose task does not resolve leaves the per-task
in-period ratio unchanged, for tasks that do live in the store. -/
theorem taskIncrementRatio_keep (goals : List Goal) (sessions : List FocusSession)
    (lo hi : Int) {g : Goal} {t : Task} (hg : g ∈ goals) (ht : t ∈ g.tasks) :
    taskIncrementRatio (sessions.filter (taskResolves goals)) lo hi t
      = taskIncrementRatio sessions lo hi t := by
  unfold taskIncrementRatio rangeSessions
  by_cases htype : t.type = TaskType.time
  · have h : ∀ s ∈ sessions, (s.taskId == t.id) = true → taskResolves goals s = true := by
      intro s hs hpt
      unfold taskResolves
      refine List.any_eq_true.mpr ⟨g, hg, List.any_eq_true.mpr ⟨t, ht, ?_⟩⟩
      rw [beq_iff_eq] at hpt ⊢
      exact hpt.symm
    rw [if_pos htype, if_pos htype,
      filter_keep_of_imp₂ sessions (taskResolves goals) _ _ h]
  · rw [if_neg htype, if_neg htype]

/-- Dropping sessions whose task does not resolve leaves the per-task
cumulative ratio unchanged, for tasks that do live in the store. -/
theorem taskTotalRatio_keep (goals : List Goal) (sessions : List FocusSession)
    {g : Goal} {t : Task} (hg : g ∈ goals) (ht : t ∈ g.tasks) :
    taskTotalRatio (sessions.filter (taskResolves goals)) t
      = taskTotalRatio sessions t := by
  unfold taskTotalRatio
  by_cases htype : t.type = TaskType.time
  · have h : ∀ s ∈ sessions, (s.taskId == t.id) = true → taskResolves goals s = true := by
      intro s hs hpt
      unfold taskResolves
      refine List.any_eq_true.mpr ⟨g, hg, List.any_eq_true.mpr ⟨t, ht, ?_⟩⟩
      rw [beq_iff_eq] at hpt ⊢
      exact hpt.symm
    rw [if_pos htype, if_pos htype,
      filter_keep_of_imp sessions (taskResolves goals) _ h]
  · rw [if_neg htype, if_neg htype]

/-- Goal-unresolved sessions never influence `goalTimeComparison`. -/
theorem goalTimeComparison_drop_unresolved (goals : List Goal)
    (sessions : List FocusSession) (lo hi : Int) :
    goalTimeComparison goals (sessions.filter (goalResolves goals)) lo hi
      = goalTimeComparison goals sessions lo hi := by
  unfold goalTimeComparison rangeSessions
  refine congrArg sortByMinutesDesc
    (congrArg (List.filter fun d : String × Int => decide (0 < d.2)) ?_)
  refine List.map_congr_left fun g hg => ?_
  have h : ∀ s ∈ sessions, (s.goalId == g.id) = true → goalResolves goals s = true := by
    intro s hs hpg
    unfold goalResolves
    refine List.any_eq_true.mpr ⟨g, hg, ?_⟩
    rw [beq_iff_eq] at hpg ⊢
    exact hpg.symm
  rw [filter_keep_of_imp₂ sessions (goalResolves goals) _ _ h]

/-- Task-unresolved sessions never influence the week/month
`goalIncrements`. -/
theorem goalIncrements_drop_unresolved (goals : List Goal)
    (sessions : List FocusSession) (lo hi : Int) :
    goalIncrements goals (sessions.filter (taskResolves goals)) lo hi
      = goalIncrements goals sessions lo hi := by
  unfold goalIncrements
  refine filterMap_congr_mem fun g hg => ?_
  unfold goalIncrementEntry
  rw [List.map_congr_left fun t ht => taskIncrementRatio_keep goals sessions lo hi hg ht,
    List.map_congr_left fun t ht => taskTotalRatio_keep goals sessions hg ht]

/-- When no goal is titled "Unknown", the daily distribution's "Unknown"
bucket holds exactly the minutes of the day's goal-unresolved sessions. -/
theorem dailyDistribution_unknown (goals : List Goal)
    (sessions : List FocusSession) (sameDay : Int → Bool)
    (hU : ∀ g ∈ goals, g.title ≠ "Unknown") :
    dailyDistribution goals sessions sameDay "Unknown"
      = sumDur ((daySessions sessions sameDay).filter
          fun s => !(goalResolves goals s)) := by
  unfold dailyDistribution
  refine congrArg sumDur (List.filter_congr fun s hs => ?_)
  unfold sessionGoalName goalResolves
  cases hfind : goals.find? (fun g => g.id == s.goalId) with
  | some g =>
    have hmem := List.mem_of_find?_eq_some hfind
    have hpred := List.find?_some hfind
    have hany : (goals.any fun g => g.id == s.goalId) = true :=
      List.any_eq_true.mpr ⟨g, hmem, hpred⟩
    rw [hany]
    simp [hU g hmem]
  | none =>
    have hany : (goals.any fun g => g.id == s.goalId) = false := by
      rw [List.any_eq_false]
      intro g hgmem
      simpa using List.find?_eq_none.mp hfind g hgmem
    rw [hany]
    simp

/-- Claim C5 amended: a session whose `goalId` resolves to no goal
contributes nothing to `goalTimeComparison` (dropping all such sessions
leaves the output unchanged); a session whose `taskId` resolves to no task of
any goal contributes nothing to the week/month `goalIncrements`; and the
daily distribution reports the minutes of goal-unresolved sessions under the
"Unknown" label (when no goal itself is titled "Unknown") rather than
dropping them. A session with a resolving `goalId` but dangling `taskId`,
however, still contributes its minutes to `goalTimeComparison`. -/
theorem C5_orphan_contributions (goals : List Goal) (sessions : List FocusSession)
    (lo hi : Int) (sameDay : Int → Bool)
    (hU : ∀ g ∈ goals, g.title ≠ "Unknown") :
    goalTimeComparison goals (sessions.filter (goalResolves goals)) lo hi
      = goalTimeComparison goals sessions lo hi ∧
    goalIncrements goals (sessions.filter (taskResolves goals)) lo hi
      = goalIncrements goals sessions lo hi ∧
    dailyDistribution goals sessions sameDay "Unknown"
      = sumDur ((daySessions sessions sameDay).filter
          fun s => !(goalResolves goals s)) :=
  ⟨goalTimeComparison_drop_unresolved goals sessions lo hi,
    goalIncrements_drop_unresolved goals sessions lo hi,
    dailyDistribution_unknown goals sessions sameDay hU⟩

/-- Witness for the amended C5: one resolving and one fully orphaned session
against `rollGoal`. -/
theorem C5_orphan_contributions_witness :
    (∀ g ∈ [rollGoal], g.title ≠ "Unknown") ∧
    (goalTimeComparison [rollGoal]
        ([sess45, sessNoGoal].filter (goalResolves [rollGoal])) 0 10
      = goalTimeComparison [rollGoal] [sess45, sessNoGoal] 0 10 ∧
    goalIncrements [rollGoal]
        ([sess45, sessNoGoal].filter (taskResolves [rollGoal])) 0 10
      = goalIncrements [rollGoal] [sess45, sessNoGoal] 0 10 ∧
    dailyDistribution [rollGoal] [sess45, sessNoGoal] (fun _ => true) "Unknown"
      = sumDur ((daySessions [sess45, sessNoGoal] (fun _ => true)).filter
          fun s => !(goalResolves [rollGoal] s))) := by
  have hU : ∀ g ∈ [rollGoal], g.title ≠ "Unknown" := by
    intro g hgmem
    simp only [List.mem_singleton] at hgmem
    subst hgmem
    simp [rollGoal]
  exact ⟨hU, C5_orphan_contributions [rollGoal] [sess45, sessNoGoal] 0 10
    (fun _ => true) hU⟩

/-! ## Claim C3 -/

/-- With positive completion timestamps, the code's truthiness guard on
`completedAt` coincides with the spec's plain in-range test. -/
theorem subtaskCompletedInRange_eq_spec (lo hi : Int) (sub : Subtask)
    (h : ∀ c, sub.completedAt = some c → 0 < c) :
    subtaskCompletedInRange lo hi sub = subtaskCompletedInRangeSpec lo hi sub := by
  unfold subtaskCompletedInRange subtaskCompletedInRangeSpec
  cases hc : sub.completedAt with
  | none => rfl
  | some c =>
    have h0 : c ≠ 0 := by
      have := h c hc
      omega
    simp [h0]

/-- Claim C3: for the week/month ranges, `goalIncrements` computes exactly
the spec formulas — time-tasks compare in-range minutes and all-time minutes
(recomputed from the full ledger, never the cached `totalTimeSpent`) against
the target, count-tasks compare subtasks completed inside the range and
completed ever against `max(subtasks.length, 1)` — and a goal appears iff
its increment or its current total is positive. (Completion timestamps
positive, per the data model.) -/
theorem C3_goalIncrements_spec (goals : List Goal) (sessions : List FocusSession)
    (lo hi : Int)
    (h : ∀ g ∈ goals, ∀ t ∈ g.tasks, ∀ sub ∈ t.subtasks, ∀ c,
      sub.completedAt = some c → 0 < c) :
    goalIncrements goals sessions lo hi = goalIncrementsSpec goals sessions lo hi := by
  unfold goalIncrements goalIncrementsSpec
  refine filterMap_congr_mem fun g hg => ?_
  unfold goalIncrementEntry
  have hinc : g.tasks.map (taskIncrementRatio sessions lo hi)
      = g.tasks.map (taskIncrementRatioSpec sessions lo hi) := by
    refine List.map_congr_left fun t ht => ?_
    unfold taskIncrementRatio taskIncrementRatioSpec
    by_cases htype : t.type = TaskType.time
    · rw [if_pos htype, if_pos htype]
    · rw [if_neg htype, if_neg htype]
      have hfilter : t.subtasks.filter (subtaskCompletedInRange lo hi)
          = t.subtasks.filter (subtaskCompletedInRangeSpec lo hi) :=
        List.filter_congr fun sub hsub =>
          subtaskCompletedInRange_eq_spec lo hi sub (h g hg t ht sub hsub)
      rw [hfilter]
  have htot : g.tasks.map (taskTotalRatio sessions)
      = g.tasks.map (taskTotalRatioSpec sessions) :=
    List.map_congr_left fun t _ => rfl
  rw [hinc, htot]

/-- Witness for C3 on `countGoal` with one in-range session in the ledger. -/
theorem C3_goalIncrements_spec_witness :
    (∀ g ∈ [countGoal], ∀ t ∈ g.tasks, ∀ sub ∈ t.subtasks, ∀ c : Int,
      sub.completedAt = some c → 0 < c) ∧
    goalIncrements [countGoal] [sess45] 0 10
      = goalIncrementsSpec [countGoal] [sess45] 0 10 := by
  have h : ∀ g ∈ [countGoal], ∀ t ∈ g.tasks, ∀ sub ∈ t.subtasks, ∀ c : Int,
      sub.completedAt = some c → 0 < c := by
    intro g hgmem t htm sub hsm c hc
    simp only [List.mem_singleton] at hgmem
    subst hgmem
    simp only [countGoal, List.mem_singleton] at htm
    subst htm
    simp only [countTask, List.mem_cons, List.not_mem_nil, or_false] at hsm
    rcases hsm with h1 | h1 | h1 <;> subst h1 <;>
      simp [subDone, subTodo, subTodo2] at hc
    omega
  exact ⟨h, C3_goalIncrements_spec [countGoal] [sess45] 0 10 h⟩

/-! ## Claim C10 -/

/-- Per task, the in-period ratio never exceeds the cumulative ratio, as long
as session durations are non-negative and any present target is positive. -/
theorem taskIncrementRatio_le_total (sessions : List FocusSession) (lo hi : Int)
    (t : Task) (hdur : ∀ s ∈ sessions, 0 ≤ s.durationMinutes)
    (htarget : ∀ v, t.targetDurationMinutes = some v → 0 < v) :
    taskIncrementRatio sessions lo hi t ≤ taskTotalRatio sessions t := by
  unfold taskIncrementRatio taskTotalRatio rangeSessions
  by_cases htype : t.type = TaskType.time
  · rw [if_pos htype, if_pos htype]
    have hT : (0 : ℚ) < (jsOr t.targetDurationMinutes 60 : ℚ) := by
      have hint : 0 < jsOr t.targetDurationMinutes 60 := by
        unfold jsOr
        cases hv : t.targetDurationMinutes with
        | none =>
          show (0 : Int) < 60
          omega
        | some v =>
          have hvpos := htarget v hv
          show (0 : Int) < if v = 0 then 60 else v
          split <;> omega
      exact_mod_cast hint
    refine min_le_min le_rfl ?_
    refine (div_le_div_iff_of_pos_right hT).mpr ?_
    have hsub : List.Sublist
        ((((sessions.filter fun s => inRange lo hi s.startTime).filter
          fun s => s.taskId == t.id)).map (·.durationMinutes))
        (((sessions.filter fun s => s.taskId == t.id)).map (·.durationMinutes)) :=
      ((List.filter_sublist sessions).filter _).map _
    have hle := List.Sublist.sum_le_sum hsub ?_
    · unfold sumDur
      exact_mod_cast hle
    · intro a ha
      rw [List.mem_map] at ha
      obtain ⟨s, hs, rfl⟩ := ha
      exact hdur s (List.mem_of_mem_filter hs)
  · rw [if_neg htype, if_neg htype]
    have hsub : List.Sublist (t.subtasks.filter (subtaskCompletedInRange lo hi))
        (t.subtasks.filter (·.isCompleted)) := by
      refine List.monotone_filter_right _ fun sub hsubp => ?_
      unfold subtaskCompletedInRange at hsubp
      simp only [Bool.and_eq_true] at hsubp
      exact hsubp.1
    have hden : (0 : ℚ) < (max t.subtasks.length 1 : ℚ) :=
      lt_of_lt_of_le one_pos (le_max_right _ _)
    refine (div_le_div_iff_of_pos_right hden).mpr ?_
    exact_mod_cast hsub.length_le

/-- Claim C10: for non-negative session durations (and positive targets, per
the data model), every week/month `goalIncrements` entry satisfies
`increment ≤ currentTotal` — the in-range sessions and in-range completed
subtasks are subsets of their all-time counterparts, and averaging and
rounding preserve the order. -/
theorem C10_increment_le_total (goals : List Goal) (sessions : List FocusSession)
    (lo hi : Int) (hdur : ∀ s ∈ sessions, 0 ≤ s.durationMinutes)
    (htargets : ∀ g ∈ goals, ∀ t ∈ g.tasks, ∀ v,
      t.targetDurationMinutes = some v → 0 < v) :
    ∀ e ∈ goalIncrements goals sessions lo hi, e.increment ≤ e.currentTotal := by
  intro e he
  unfold goalIncrements at he
  rw [List.mem_filterMap] at he
  obtain ⟨g, hg, hentry⟩ := he
  simp only [goalIncrementEntry] at hentry
  split at hentry
  · injection hentry with hentry
    subst hentry
    apply jsRound_mono
    have hsum : (g.tasks.map (taskIncrementRatio sessions lo hi)).sum
        ≤ (g.tasks.map (taskTotalRatio sessions)).sum :=
      List.sum_le_sum fun t ht =>
        taskIncrementRatio_le_total sessions lo hi t hdur (htargets g hg t ht)
    have htc : (0 : ℚ) < (max g.tasks.length 1 : ℚ) :=
      lt_of_lt_of_le one_pos (le_max_right _ _)
    have hdiv := (div_le_div_iff_of_pos_right htc).mpr hsum
    exact mul_le_mul_of_nonneg_right hdiv (by norm_num)
  · exact absurd hentry (by simp)

/-- Witness for C10 on `countGoal` with one 45-minute session. -/
theorem C10_increment_le_total_witness :
    (∀ s ∈ [sess45], 0 ≤ s.durationMinutes) ∧
    (∀ g ∈ [countGoal], ∀ t ∈ g.tasks, ∀ v : Int,
      t.targetDurationMinutes = some v → 0 < v) ∧
    ∀ e ∈ goalIncrements [countGoal] [sess45] 0 10,
      e.increment ≤ e.currentTotal := by
  have hdur : ∀ s ∈ [sess45], 0 ≤ s.durationMinutes := by
    intro s hs
    simp only [List.mem_singleton] at hs
    subst hs
    simp [sess45]
  have htargets : ∀ g ∈ [countGoal], ∀ t ∈ g.tasks, ∀ v : Int,
      t.targetDurationMinutes = some v → 0 < v := by
    intro g hgmem t htm v hv
    simp only [List.mem_singleton] at hgmem
    subst hgmem
    simp only [countGoal, List.mem_singleton] at htm
    subst htm
    simp [countTask] at hv
  exact ⟨hdur, htargets, C10_increment_le_total [countGoal] [sess45] 0 10 hdur htargets⟩

end FocusFlow
